import Mathlib

/-!
Shallow embedding of `src/main.cpp` of spectacle-ocr-screenshot.

The program is sequential glue around external services (the `spectacle`
screenshot tool, the ZXing barcode reader, the Tesseract OCR engine, Qt
widgets and file dialogs).  Each external service is modelled by an explicit
environment value recording the outcome the service would produce on this
run; the program's own control flow, string formatting and widget updates are
translated directly from the source.
-/

namespace SpectacleOcr

/-- Mirror of the C++ `OcrResult` struct (src/main.cpp:32-37). -/
structure OcrResult where
  text : String := ""
  success : Bool
  errorMessage : String := ""
  isQrCode : Bool := false
deriving Repr, DecidableEq

/-- `takeScreenshot` (src/main.cpp:26-30): runs
`spectacle -b -r -n -o path` via `QProcess::execute` and reports success
iff the exit code is 0.  A missing tool is reported by `QProcess` as a
negative exit code, hence also failure. -/
def takeScreenshot (exitCode : Int) : Bool :=
  exitCode == 0

/-- Outcome of the external image-load and ZXing decode used by
`detectQrCode`: the image file fails to load (`QImage.isNull`), or it loads
but ZXing finds no valid QR code, or ZXing decodes a payload. -/
inductive QrEnv where
  | loadFail
  | noCode
  | decoded (payload : String)
deriving Repr, DecidableEq

/-- `detectQrCode` (src/main.cpp:39-80). -/
def detectQrCode (env : QrEnv) : OcrResult :=
  match env with
  | .loadFail => { success := false, errorMessage := "Failed to load image for QR detection" }
  | .noCode => { success := false, errorMessage := "Failed to detect valid QR code" }
  | .decoded payload => { text := payload, success := true, isQrCode := true }

/-- Outcomes of the external calls made by `extractText`: whether
`TessBaseAPI::Init` fails (returns nonzero), whether `pixRead` loads the
image, and the text `GetUTF8Text` would return. -/
structure OcrEnv where
  initFails : Bool
  imageLoads : Bool
  ocrText : String
deriving Repr, DecidableEq

/-- `extractText` (src/main.cpp:82-113). -/
def extractText (env : OcrEnv) (language : String) : OcrResult :=
  if env.initFails then
    { success := false,
      errorMessage := "Error initializing Tesseract OCR for language: " ++ language }
  else if !env.imageLoads then
    { success := false, errorMessage := "Failed to load image" }
  else
    { text := env.ocrText, success := true }

/-- Per-character escaping performed by `QString::toHtmlEscaped`. -/
def escapeChar (c : Char) : List Char :=
  if c = '<' then [ '&', 'l', 't', ';']
  else if c = '>' then [ '&', 'g', 't', ';']
  else if c = '&' then [ '&', 'a', 'm', 'p', ';']
  else if c = '"' then [ '&', 'q', 'u', 'o', 't', ';']
  else [c]

/-- Escape every character of a character list. -/
def escapeList : List Char → List Char
  | [] => []
  | c :: cs => escapeChar c ++ escapeList cs

/-- `QString::toHtmlEscaped`, applied to the recognized text before it is
spliced into the HTML template (src/main.cpp:298, 422, 539). -/
def toHtmlEscaped (s : String) : String :=
  String.mk (escapeList s.data)

/-- The HTML template text written before the generated timestamp
(src/main.cpp:236-297; the auto-export copies at 360-421 and 477-538 are
byte-identical). -/
def htmlPre : String :=
  "<!DOCTYPE html>\n<html lang=\"en\">\n<head>\n    <meta charset=\"UTF-8\">\n    <meta name=\"viewport\" content=\"width=device-width, initial-scale=1.0\">\n    <title>OCR Results</title>\n    <style>\n        body \x7b\n            font-family: Arial, sans-serif;\n            margin: 20px;\n            line-height: 1.6;\n            background-color: #f4f4f4;\n        \x7d\n        .container \x7b\n            max-width: 800px;\n            margin: 0 auto;\n            background-color: white;\n            padding: 20px;\n            border-radius: 8px;\n            box-shadow: 0 2px 4px rgba(0,0,0,0.1);\n        \x7d\n        h1 \x7b\n            color: #333;\n        \x7d\n        .timestamp \x7b\n            color: #666;\n            font-size: 0.9em;\n        \x7d\n        .content \x7b\n            width: 100%;\n            min-height: 300px;\n            padding: 15px;\n            border: 2px solid #007bff;\n            border-radius: 4px;\n            font-family: \x27Courier New\x27, monospace;\n            font-size: 14px;\n            box-sizing: border-box;\n            resize: vertical;\n        \x7d\n        .button-group \x7b\n            margin-top: 15px;\n            display: flex;\n            gap: 10px;\n        \x7d\n        button \x7b\n            padding: 10px 20px;\n            background-color: #007bff;\n            color: white;\n            border: none;\n            border-radius: 4px;\n            cursor: pointer;\n            font-size: 14px;\n        \x7d\n        button:hover \x7b\n            background-color: #0056b3;\n        \x7d\n    </style>\n</head>\n<body>\n    <div class=\"container\">\n        <h1>OCR Results</h1>\n        <p class=\"timestamp\">Generated: "

/-- The template text between the generated timestamp and the escaped
recognized text (src/main.cpp:297-298). -/
def htmlMid : String :=
  "</p>\n        <textarea id=\"content\" class=\"content\">"

/-- The template text following the escaped recognized text
(src/main.cpp:298-324). -/
def htmlPost : String :=
  "</textarea>\n        <div class=\"button-group\">\n            <button onclick=\"copyText()\">Copy to Clipboard</button>\n            <button onclick=\"downloadText()\">Download as TXT</button>\n        </div>\n    </div>\n    <script>\n        function copyText() \x7b\n            const textarea = document.getElementById(\x27content\x27);\n            textarea.select();\n            document.execCommand(\x27copy\x27);\n            alert(\x27Text copied to clipboard!\x27);\n        \x7d\n        function downloadText() \x7b\n            const textarea = document.getElementById(\x27content\x27);\n            const text = textarea.value;\n            const element = document.createElement(\x27a\x27);\n            element.setAttribute(\x27href\x27, \x27data:text/plain;charset=utf-8,\x27 + encodeURIComponent(text));\n            element.setAttribute(\x27download\x27, \x27ocr_result.txt\x27);\n            element.style.display = \x27none\x27;\n            document.body.appendChild(element);\n            element.click();\n            document.body.removeChild(element);\n        \x7d\n    </script>\n</body>\n</html>\n"

/-- The complete HTML document each export path writes: template,
generated timestamp, template, HTML-escaped recognized text, template. -/
def htmlPage (generatedTs : String) (text : String) : String :=
  htmlPre ++ generatedTs ++ htmlMid ++ toHtmlEscaped text ++ htmlPost

/-- Recognizer for the tails of the four HTML entities the escaping can
produce: `lt;`, `gt;`, `amp;`, `quot;`. -/
def entityAfterAmp : List Char → Bool
  | 'l' :: 't' :: ';' :: _ => true
  | 'g' :: 't' :: ';' :: _ => true
  | 'a' :: 'm' :: 'p' :: ';' :: _ => true
  | 'q' :: 'u' :: 'o' :: 't' :: ';' :: _ => true
  | _ => false

/-- Holds when every ampersand in the list is the start of one of the four
HTML entities, i.e. no ampersand occurs literally on its own. -/
def ampersandsAreEntities : List Char → Bool
  | [] => true
  | c :: rest => (if c = '&' then entityAfterAmp rest else true) && ampersandsAreEntities rest

/-- The run configuration parsed by `QCommandLineParser`
(src/main.cpp:118-143). -/
structure Config where
  language : String
  disableQr : Bool
  openInBrowser : Bool
deriving Repr, DecidableEq

/-- Build the configuration from the raw command line: `--lang` carries the
default value "eng" when absent (src/main.cpp:122-125), `--disable-qr` and
`--web`/`--browser` are plain flags. -/
def mkConfig (langArg : Option String) (disableQr openInBrowser : Bool) : Config :=
  { language := langArg.getD "eng", disableQr := disableQr, openInBrowser := openInBrowser }

/-- External outcomes for one run of `main`: the screenshot process exit
code, the QR detection environment, the OCR environment, whether
`QFile::open` succeeds for the auto-export HTML file, and the
"Generated:" timestamp string. -/
structure RunEnv where
  spectacleExitCode : Int
  qr : QrEnv
  ocr : OcrEnv
  htmlOpenOk : Bool
  generatedTs : String
deriving Repr, DecidableEq

/-- How `main` terminates: an explicit `return 0` on the auto-export
branches, or falling into `app.exec()` (the GUI event loop). -/
inductive ExitMode where
  | directReturn (code : Int)
  | eventLoop
deriving Repr, DecidableEq

/-- Observable outcome of one run of `main` up to the point where control
either returns or enters the event loop: final widget contents, whether
`window.show()` was called, any `QMessageBox::critical` raised, the list of
languages `extractText` was invoked with, the HTML documents written by the
auto-export paths, whether `QDesktopServices::openUrl` was called, and the
exit mode. -/
structure RunOutcome where
  textArea : String
  labelText : String
  windowShown : Bool
  criticalAlert : Option (String × String)
  ocrCalls : List String
  htmlDocs : List String
  openUrlCalled : Bool
  exitMode : ExitMode
deriving Repr, DecidableEq

/-- The OCR fall-through of `main` (src/main.cpp:460-572): invoke
`extractText`; on failure clear the text area and show the error in the
label, then show the window; on success fill the widgets and, if the
browser flag is set, write the HTML report (silently skipping it when the
file does not open), open it, and return 0 without showing the window. -/
def ocrPath (cfg : Config) (env : RunEnv) : RunOutcome :=
  let result := extractText env.ocr cfg.language
  if !result.success then
    { textArea := "", labelText := result.errorMessage, windowShown := true,
      criticalAlert := none, ocrCalls := [cfg.language], htmlDocs := [],
      openUrlCalled := false, exitMode := .eventLoop }
  else if cfg.openInBrowser then
    { textArea := result.text, labelText := "Text extracted successfully.",
      windowShown := false, criticalAlert := none, ocrCalls := [cfg.language],
      htmlDocs := if env.htmlOpenOk then [htmlPage env.generatedTs result.text] else [],
      openUrlCalled := env.htmlOpenOk, exitMode := .directReturn 0 }
  else
    { textArea := result.text, labelText := "Text extracted successfully.",
      windowShown := true, criticalAlert := none, ocrCalls := [cfg.language],
      htmlDocs := [], openUrlCalled := false, exitMode := .eventLoop }

/-- The body of `main` after the widgets are wired (src/main.cpp:344-583):
take the screenshot; on success try QR detection unless disabled, taking
the QR branch (src/main.cpp:348-457) when it decodes, otherwise fall
through to OCR; on capture failure show the window with an empty text
area, an error label, and a blocking critical alert. -/
def runMain (cfg : Config) (env : RunEnv) : RunOutcome :=
  if takeScreenshot env.spectacleExitCode then
    if !cfg.disableQr && (detectQrCode env.qr).success then
      let result := detectQrCode env.qr
      if cfg.openInBrowser then
        { textArea := result.text, labelText := "QR code detected and decoded successfully",
          windowShown := false, criticalAlert := none, ocrCalls := [],
          htmlDocs := if env.htmlOpenOk then [htmlPage env.generatedTs result.text] else [],
          openUrlCalled := env.htmlOpenOk, exitMode := .directReturn 0 }
      else
        { textArea := result.text, labelText := "QR code detected and decoded successfully",
          windowShown := true, criticalAlert := none, ocrCalls := [],
          htmlDocs := [], openUrlCalled := false, exitMode := .eventLoop }
    else
      ocrPath cfg env
  else
    { textArea := "", labelText := "Error occurred while taking screenshot",
      windowShown := true,
      criticalAlert := some ("Error", "Failed to launch Spectacle or take screenshot"),
      ocrCalls := [], htmlDocs := [], openUrlCalled := false, exitMode := .eventLoop }

/-- Outcome of a copy-button click (src/main.cpp:176-184): the clipboard
write, if any, and the new status-label text. -/
structure CopyOutcome where
  clipboard : Option String
  labelText : String
deriving Repr, DecidableEq

/-- The copy-button handler (src/main.cpp:176-184). -/
def copyClick (textArea : String) : CopyOutcome :=
  if !(textArea == "") then
    { clipboard := some textArea, labelText := "Text copied to clipboard" }
  else
    { clipboard := none, labelText := "No text to copy" }

/-- External outcomes for a save-text click: the file name returned by
`QFileDialog::getSaveFileName` (empty when cancelled) and whether
`QFile::open` succeeds. -/
structure SaveTextEnv where
  dialogFileName : String
  openOk : Bool
deriving Repr, DecidableEq

/-- Outcome of a save-text click: whether the dialog was opened, the text
written (if any), the new label text (`none` when the label is untouched),
and any critical alert. -/
structure SaveTextOutcome where
  dialogOpened : Bool
  written : Option String
  labelText : Option String
  alert : Option (String × String)
deriving Repr, DecidableEq

/-- The save-text-button handler (src/main.cpp:186-209). -/
def saveTextClick (textArea : String) (env : SaveTextEnv) : SaveTextOutcome :=
  if !(textArea == "") then
    if !(env.dialogFileName == "") then
      if env.openOk then
        { dialogOpened := true, written := some textArea,
          labelText := some "Text saved to file", alert := none }
      else
        { dialogOpened := true, written := none,
          labelText := some "Failed to save file",
          alert := some ("Error", "Failed to save the file") }
    else
      { dialogOpened := true, written := none, labelText := none, alert := none }
  else
    { dialogOpened := false, written := none,
      labelText := some "No text to save", alert := none }

/-- External outcomes for a save-image click: the destination chosen in the
dialog (empty when cancelled) and whether `QFile::copy` succeeds. -/
structure SaveImageEnv where
  dialogFileName : String
  copyOk : Bool
deriving Repr, DecidableEq

/-- Outcome of a save-image click. -/
structure SaveImageOutcome where
  dialogOpened : Bool
  copyAttempted : Bool
  labelText : Option String
  alert : Option (String × String)
deriving Repr, DecidableEq

/-- The save-image-button handler (src/main.cpp:211-225).  Note the lambda
never reads the text area: the dialog is opened unconditionally. -/
def saveImageClick (env : SaveImageEnv) : SaveImageOutcome :=
  if !(env.dialogFileName == "") then
    if env.copyOk then
      { dialogOpened := true, copyAttempted := true,
        labelText := some "Screenshot saved successfully", alert := none }
    else
      { dialogOpened := true, copyAttempted := true,
        labelText := some "Failed to save screenshot",
        alert := some ("Error", "Failed to save the screenshot file") }
  else
    { dialogOpened := true, copyAttempted := false, labelText := none, alert := none }

/-- External outcomes for a browser-button click: whether `QFile::open`
succeeds for the HTML file, whether `QDesktopServices::openUrl` succeeds,
and the timestamp string. -/
structure BrowserEnv where
  openOk : Bool
  urlOpenOk : Bool
  generatedTs : String
deriving Repr, DecidableEq

/-- Outcome of a browser-button click: the HTML document written (if any),
whether `openUrl` was called, the new label text, and any message box
(kind, title, message). -/
structure BrowserOutcome where
  htmlDoc : Option String
  openUrlCalled : Bool
  labelText : Option String
  alert : Option (String × String × String)
deriving Repr, DecidableEq

/-- The open-in-browser-button handler (src/main.cpp:227-342). -/
def browserClick (textArea : String) (env : BrowserEnv) : BrowserOutcome :=
  if !(textArea == "") then
    if env.openOk then
      if env.urlOpenOk then
        { htmlDoc := some (htmlPage env.generatedTs textArea), openUrlCalled := true,
          labelText := some "OCR results opened in web browser", alert := none }
      else
        { htmlDoc := some (htmlPage env.generatedTs textArea), openUrlCalled := true,
          labelText := some "Failed to open web browser",
          alert := some ("warning", "Warning", "Could not open default web browser") }
    else
      { htmlDoc := none, openUrlCalled := false,
        labelText := some "Failed to create HTML file",
        alert := some ("critical", "Error", "Failed to create temporary HTML file") }
  else
    { htmlDoc := none, openUrlCalled := false,
      labelText := some "No text to display", alert := none }

/-! ## Helper lemmas -/

theorem escapeChar_no_lt (c : Char) : '<' ∉ escapeChar c := by
  unfold escapeChar
  split_ifs with h1 h2 h3 h4
  · decide
  · decide
  · decide
  · decide
  · simp only [List.mem_singleton]
    exact Ne.symm h1

theorem escapeChar_no_gt (c : Char) : '>' ∉ escapeChar c := by
  unfold escapeChar
  split_ifs with h1 h2 h3 h4
  · decide
  · decide
  · decide
  · decide
  · simp only [List.mem_singleton]
    exact Ne.symm h2

theorem escapeList_no_lt : ∀ l : List Char, '<' ∉ escapeList l
  | [] => by simp [escapeList]
  | c :: cs => by
    simp only [escapeList, List.mem_append]
    rintro (h | h)
    · exact escapeChar_no_lt c h
    · exact escapeList_no_lt cs h

theorem escapeList_no_gt : ∀ l : List Char, '>' ∉ escapeList l
  | [] => by simp [escapeList]
  | c :: cs => by
    simp only [escapeList, List.mem_append]
    rintro (h | h)
    · exact escapeChar_no_gt c h
    · exact escapeList_no_gt cs h

theorem ampersands_escapeChar_append (c : Char) (t : List Char)
    (ht : ampersandsAreEntities t = true) :
    ampersandsAreEntities (escapeChar c ++ t) = true := by
  unfold escapeChar
  split_ifs with h1 h2 h3 h4
  · exact ht
  · exact ht
  · exact ht
  · exact ht
  · simp only [List.singleton_append, ampersandsAreEntities]
    rw [if_neg h3, Bool.true_and]
    exact ht

theorem ampersands_escapeList : ∀ l : List Char, ampersandsAreEntities (escapeList l) = true
  | [] => rfl
  | c :: cs => ampersands_escapeChar_append c (escapeList cs) (ampersands_escapeList cs)

theorem ocrPath_ocrCalls (cfg : Config) (env : RunEnv) :
    (ocrPath cfg env).ocrCalls = [cfg.language] := by
  simp only [ocrPath]
  split_ifs <;> rfl

theorem runMain_htmlDocs_mem (cfg : Config) (env : RunEnv) (doc : String)
    (h : doc ∈ (runMain cfg env).htmlDocs) :
    doc = htmlPage env.generatedTs (runMain cfg env).textArea := by
  unfold runMain ocrPath at h ⊢
  split_ifs at h ⊢ <;> simp_all
  all_goals split_ifs at h ⊢ <;> simp_all

theorem browserClick_htmlDoc_some (textArea : String) (benv : BrowserEnv) (doc : String)
    (h : (browserClick textArea benv).htmlDoc = some doc) :
    doc = htmlPage benv.generatedTs textArea := by
  unfold browserClick at h
  split_ifs at h <;> simp_all

/-! ## Claims -/

/-- C1: when the screenshot command exits non-zero (a missing tool is
reported by `QProcess` as a negative exit code), `main` shows the window
with an empty text area, sets the error status on the label, raises a
blocking critical alert, and enters the GUI event loop. -/
theorem capture_failure_shows_error_window (cfg : Config) (env : RunEnv)
    (h : env.spectacleExitCode ≠ 0) :
    (runMain cfg env).windowShown = true ∧
    (runMain cfg env).textArea = "" ∧
    (runMain cfg env).labelText = "Error occurred while taking screenshot" ∧
    (runMain cfg env).criticalAlert =
      some ("Error", "Failed to launch Spectacle or take screenshot") ∧
    (runMain cfg env).exitMode = ExitMode.eventLoop := by
  have hts : takeScreenshot env.spectacleExitCode = false := by
    simp [takeScreenshot, h]
  simp [runMain, hts]

/-- Witness for `capture_failure_shows_error_window` at exit code -2. -/
theorem capture_failure_shows_error_window_witness :
    ((⟨-2, QrEnv.noCode, ⟨false, true, "hello"⟩, true, "T"⟩ : RunEnv).spectacleExitCode ≠ 0) ∧
    (runMain ⟨"eng", false, false⟩ ⟨-2, QrEnv.noCode, ⟨false, true, "hello"⟩, true, "T"⟩).windowShown = true ∧
    (runMain ⟨"eng", false, false⟩ ⟨-2, QrEnv.noCode, ⟨false, true, "hello"⟩, true, "T"⟩).textArea = "" ∧
    (runMain ⟨"eng", false, false⟩ ⟨-2, QrEnv.noCode, ⟨false, true, "hello"⟩, true, "T"⟩).labelText = "Error occurred while taking screenshot" ∧
    (runMain ⟨"eng", false, false⟩ ⟨-2, QrEnv.noCode, ⟨false, true, "hello"⟩, true, "T"⟩).criticalAlert =
      some ("Error", "Failed to launch Spectacle or take screenshot") ∧
    (runMain ⟨"eng", false, false⟩ ⟨-2, QrEnv.noCode, ⟨false, true, "hello"⟩, true, "T"⟩).exitMode = ExitMode.eventLoop :=
  ⟨by decide, capture_failure_shows_error_window _ _ (by decide)⟩

/-- C2: when QR detection is enabled and the decode succeeds, the text
area holds exactly the decoded payload, the label reports QR success, and
`extractText` is never invoked in that run. -/
theorem qr_success_displays_payload (cfg : Config) (env : RunEnv) (payload : String)
    (hc : env.spectacleExitCode = 0) (hq : cfg.disableQr = false)
    (hd : env.qr = QrEnv.decoded payload) :
    (runMain cfg env).textArea = payload ∧
    (runMain cfg env).labelText = "QR code detected and decoded successfully" ∧
    (runMain cfg env).ocrCalls = [] := by
  have hts : takeScreenshot env.spectacleExitCode = true := by
    simp [takeScreenshot, hc]
  by_cases hb : cfg.openInBrowser <;>
    simp [runMain, hts, hq, hd, detectQrCode, hb]

/-- Witness for `qr_success_displays_payload`. -/
theorem qr_success_displays_payload_witness :
    ((⟨0, QrEnv.decoded "payload", ⟨false, true, ""⟩, true, "T"⟩ : RunEnv).spectacleExitCode = 0) ∧
    ((⟨"eng", false, false⟩ : Config).disableQr = false) ∧
    ((⟨0, QrEnv.decoded "payload", ⟨false, true, ""⟩, true, "T"⟩ : RunEnv).qr = QrEnv.decoded "payload") ∧
    (runMain ⟨"eng", false, false⟩ ⟨0, QrEnv.decoded "payload", ⟨false, true, ""⟩, true, "T"⟩).textArea = "payload" ∧
    (runMain ⟨"eng", false, false⟩ ⟨0, QrEnv.decoded "payload", ⟨false, true, ""⟩, true, "T"⟩).labelText = "QR code detected and decoded successfully" ∧
    (runMain ⟨"eng", false, false⟩ ⟨0, QrEnv.decoded "payload", ⟨false, true, ""⟩, true, "T"⟩).ocrCalls = [] :=
  ⟨rfl, rfl, rfl, qr_success_displays_payload _ _ "payload" rfl rfl rfl⟩

/-- C3: whenever the capture succeeds and either QR detection is disabled
or the decode fails, `extractText` is invoked exactly once, with exactly
the `--lang` value (default "eng"). -/
theorem ocr_invoked_once_with_language (langArg : Option String) (dq ob : Bool)
    (env : RunEnv) (hc : env.spectacleExitCode = 0)
    (h : dq = true ∨ (detectQrCode env.qr).success = false) :
    (runMain (mkConfig langArg dq ob) env).ocrCalls = [(mkConfig langArg dq ob).language] ∧
    (mkConfig langArg dq ob).language = langArg.getD "eng" := by
  have hts : takeScreenshot env.spectacleExitCode = true := by
    simp [takeScreenshot, hc]
  refine ⟨?_, rfl⟩
  have hcond : (!(mkConfig langArg dq ob).disableQr && (detectQrCode env.qr).success) = false := by
    rcases h with h | h <;> simp [mkConfig, h]
  simp [runMain, hts, hcond, ocrPath_ocrCalls]

/-- Witness for `ocr_invoked_once_with_language` at language "eng+hin". -/
theorem ocr_invoked_once_with_language_witness :
    ((⟨0, QrEnv.noCode, ⟨false, true, "hi"⟩, true, "T"⟩ : RunEnv).spectacleExitCode = 0) ∧
    ((true : Bool) = true ∨ (detectQrCode (⟨0, QrEnv.noCode, ⟨false, true, "hi"⟩, true, "T"⟩ : RunEnv).qr).success = false) ∧
    (runMain (mkConfig (some "eng+hin") true false) ⟨0, QrEnv.noCode, ⟨false, true, "hi"⟩, true, "T"⟩).ocrCalls = [(mkConfig (some "eng+hin") true false).language] ∧
    (mkConfig (some "eng+hin") true false).language = (some "eng+hin").getD "eng" :=
  ⟨rfl, Or.inl rfl, ocr_invoked_once_with_language (some "eng+hin") true false _ rfl (Or.inl rfl)⟩

/-- C4: when OCR initialization fails for language L (and the run reaches
OCR), the window is shown with an empty text area and a status message
containing L, and `extractText` reports failure with a message naming L. -/
theorem ocr_init_failure_status (cfg : Config) (env : RunEnv)
    (hc : env.spectacleExitCode = 0)
    (hq : cfg.disableQr = true ∨ (detectQrCode env.qr).success = false)
    (hi : env.ocr.initFails = true) :
    (runMain cfg env).windowShown = true ∧
    (runMain cfg env).textArea = "" ∧
    (runMain cfg env).labelText =
      "Error initializing Tesseract OCR for language: " ++ cfg.language ∧
    (∃ pre, (runMain cfg env).labelText = pre ++ cfg.language) ∧
    (extractText env.ocr cfg.language).success = false ∧
    (extractText env.ocr cfg.language).errorMessage =
      "Error initializing Tesseract OCR for language: " ++ cfg.language := by
  have hts : takeScreenshot env.spectacleExitCode = true := by
    simp [takeScreenshot, hc]
  have hcond : (!cfg.disableQr && (detectQrCode env.qr).success) = false := by
    rcases hq with h | h <;> simp [h]
  have hex : extractText env.ocr cfg.language =
      { success := false,
        errorMessage := "Error initializing Tesseract OCR for language: " ++ cfg.language } := by
    simp [extractText, hi]
  refine ⟨?_, ?_, ?_, ⟨"Error initializing Tesseract OCR for language: ", ?_⟩, ?_, ?_⟩ <;>
    simp [runMain, hts, hcond, ocrPath, hex]

/-- Witness for `ocr_init_failure_status` at language "xx". -/
theorem ocr_init_failure_status_witness :
    ((⟨0, QrEnv.noCode, ⟨true, true, ""⟩, true, "T"⟩ : RunEnv).spectacleExitCode = 0) ∧
    ((⟨"xx", false, false⟩ : Config).disableQr = true ∨
      (detectQrCode (⟨0, QrEnv.noCode, ⟨true, true, ""⟩, true, "T"⟩ : RunEnv).qr).success = false) ∧
    ((⟨0, QrEnv.noCode, ⟨true, true, ""⟩, true, "T"⟩ : RunEnv).ocr.initFails = true) ∧
    (runMain ⟨"xx", false, false⟩ ⟨0, QrEnv.noCode, ⟨true, true, ""⟩, true, "T"⟩).windowShown = true ∧
    (runMain ⟨"xx", false, false⟩ ⟨0, QrEnv.noCode, ⟨true, true, ""⟩, true, "T"⟩).textArea = "" ∧
    (runMain ⟨"xx", false, false⟩ ⟨0, QrEnv.noCode, ⟨true, true, ""⟩, true, "T"⟩).labelText =
      "Error initializing Tesseract OCR for language: " ++ ("xx" : String) ∧
    (∃ pre, (runMain ⟨"xx", false, false⟩ ⟨0, QrEnv.noCode, ⟨true, true, ""⟩, true, "T"⟩).labelText = pre ++ ("xx" : String)) ∧
    (extractText ⟨true, true, ""⟩ "xx").success = false ∧
    (extractText ⟨true, true, ""⟩ "xx").errorMessage =
      "Error initializing Tesseract OCR for language: " ++ ("xx" : String) :=
  ⟨rfl, Or.inr rfl, rfl, ocr_init_failure_status ⟨"xx", false, false⟩ _ rfl (Or.inr rfl) rfl⟩

/-- C6: with an empty text area, the copy and save-text handlers only
update the status label: no clipboard write, no dialog, no file write, no
alert. -/
theorem empty_text_copy_save_noop (env : SaveTextEnv) :
    copyClick "" = { clipboard := none, labelText := "No text to copy" } ∧
    saveTextClick "" env =
      { dialogOpened := false, written := none,
        labelText := some "No text to save", alert := none } :=
  ⟨rfl, rfl⟩

/-- C8 counterexample: both QR failure modes are failures, but they carry
two different error messages, not one single fixed message. -/
theorem qr_failure_messages_differ :
    (detectQrCode QrEnv.loadFail).success = false ∧
    (detectQrCode QrEnv.noCode).success = false ∧
    (detectQrCode QrEnv.loadFail).errorMessage ≠ (detectQrCode QrEnv.noCode).errorMessage := by
  refine ⟨rfl, rfl, ?_⟩
  decide

/-- C8 amended: every unsuccessful detection returns a fixed message
determined by the failure mode: one message for an image that fails to
load, a different one when no decodable code is found. -/
theorem qr_failure_fixed_message_per_mode (e : QrEnv)
    (h : (detectQrCode e).success = false) :
    (detectQrCode e).errorMessage =
      if e = QrEnv.loadFail then "Failed to load image for QR detection"
      else "Failed to detect valid QR code" := by
  cases e with
  | loadFail => rfl
  | noCode => rfl
  | decoded p => simp [detectQrCode] at h

/-- Witness for `qr_failure_fixed_message_per_mode` at a failed load. -/
theorem qr_failure_fixed_message_per_mode_witness :
    (detectQrCode QrEnv.loadFail).success = false ∧
    (detectQrCode QrEnv.loadFail).errorMessage =
      (if QrEnv.loadFail = QrEnv.loadFail then "Failed to load image for QR detection"
       else "Failed to detect valid QR code") :=
  ⟨rfl, qr_failure_fixed_message_per_mode QrEnv.loadFail rfl⟩

/-- C10: the save-image handler always opens the file dialog, and when a
destination is chosen it attempts the copy of the temporary screenshot;
it never consults the text area (the handler takes no text input). -/
theorem save_image_always_dialogs (env : SaveImageEnv) :
    (saveImageClick env).dialogOpened = true ∧
    (env.dialogFileName ≠ "" → (saveImageClick env).copyAttempted = true) := by
  constructor
  · unfold saveImageClick
    split_ifs <;> rfl
  · intro h
    have hne : (env.dialogFileName == "") = false := by
      simp [h]
    unfold saveImageClick
    rw [hne]
    by_cases hcp : env.copyOk <;> simp [hcp]

/-- Witness for `save_image_always_dialogs` with a chosen destination. -/
theorem save_image_always_dialogs_witness :
    (saveImageClick ⟨"/home/u/shot.png", true⟩).dialogOpened = true ∧
    ((⟨"/home/u/shot.png", true⟩ : SaveImageEnv).dialogFileName ≠ "") ∧
    (saveImageClick ⟨"/home/u/shot.png", true⟩).copyAttempted = true :=
  ⟨(save_image_always_dialogs _).1, by decide,
    (save_image_always_dialogs _).2 (by decide)⟩

/-- C5: every exported HTML document — from the interactive browser button
or from either auto-export path — is the fixed template wrapped around the
HTML-escaped current recognized text; the escaped segment contains no
literal angle bracket, and every ampersand in it begins an HTML entity. -/
theorem export_html_escapes_text (cfg : Config) (env : RunEnv)
    (textArea : String) (benv : BrowserEnv) (doc : String)
    (h : doc ∈ (runMain cfg env).htmlDocs ∨
      (browserClick textArea benv).htmlDoc = some doc) :
    ∃ ts t,
      (t = (runMain cfg env).textArea ∨ t = textArea) ∧
      doc = htmlPre ++ ts ++ htmlMid ++ toHtmlEscaped t ++ htmlPost ∧
      '<' ∉ (toHtmlEscaped t).data ∧
      '>' ∉ (toHtmlEscaped t).data ∧
      ampersandsAreEntities (toHtmlEscaped t).data = true := by
  rcases h with h | h
  · exact ⟨env.generatedTs, (runMain cfg env).textArea, Or.inl rfl,
      runMain_htmlDocs_mem cfg env doc h,
      escapeList_no_lt _, escapeList_no_gt _, ampersands_escapeList _⟩
  · exact ⟨benv.generatedTs, textArea, Or.inr rfl,
      browserClick_htmlDoc_some textArea benv doc h,
      escapeList_no_lt _, escapeList_no_gt _, ampersands_escapeList _⟩

/-- Witness for `export_html_escapes_text` on the QR auto-export path with
text containing all three special characters. -/
theorem export_html_escapes_text_witness :
    (htmlPage "TS" "a<b&c" ∈
        (runMain ⟨"eng", false, true⟩ ⟨0, QrEnv.decoded "a<b&c", ⟨false, true, ""⟩, true, "TS"⟩).htmlDocs ∨
      (browserClick "x" ⟨false, false, "T"⟩).htmlDoc = some (htmlPage "TS" "a<b&c")) ∧
    (∃ ts t,
      (t = (runMain ⟨"eng", false, true⟩ ⟨0, QrEnv.decoded "a<b&c", ⟨false, true, ""⟩, true, "TS"⟩).textArea ∨
        t = "x") ∧
      htmlPage "TS" "a<b&c" = htmlPre ++ ts ++ htmlMid ++ toHtmlEscaped t ++ htmlPost ∧
      '<' ∉ (toHtmlEscaped t).data ∧
      '>' ∉ (toHtmlEscaped t).data ∧
      ampersandsAreEntities (toHtmlEscaped t).data = true) :=
  ⟨Or.inl (List.mem_singleton.mpr rfl),
    export_html_escapes_text _ _ "x" ⟨false, false, "T"⟩ _
      (Or.inl (List.mem_singleton.mpr rfl))⟩

/-- C7: with the auto-browser-export flag set, a successful recognition
(QR decode or OCR) makes `main` return 0 directly without ever showing
the window; contrapositively the window is shown only without the flag or
on failure. -/
theorem auto_export_success_exits_zero (cfg : Config) (env : RunEnv)
    (hb : cfg.openInBrowser = true) (hc : env.spectacleExitCode = 0)
    (hs : (cfg.disableQr = false ∧ (detectQrCode env.qr).success = true) ∨
      (extractText env.ocr cfg.language).success = true) :
    (runMain cfg env).exitMode = ExitMode.directReturn 0 ∧
    (runMain cfg env).windowShown = false := by
  have hts : takeScreenshot env.spectacleExitCode = true := by
    simp [takeScreenshot, hc]
  by_cases hqr : (!cfg.disableQr && (detectQrCode env.qr).success) = true
  · by_cases hw : env.htmlOpenOk <;> simp [runMain, hts, hqr, hb, hw]
  · have hx : (extractText env.ocr cfg.language).success = true := by
      rcases hs with ⟨h1, h2⟩ | h2
      · exact absurd (by simp [h1, h2]) hqr
      · exact h2
    simp only [Bool.not_eq_true] at hqr
    simp [runMain, hts, hqr, ocrPath, hx, hb]

/-- Witness for `auto_export_success_exits_zero` on the OCR path. -/
theorem auto_export_success_exits_zero_witness :
    ((⟨"eng", true, true⟩ : Config).openInBrowser = true) ∧
    ((⟨0, QrEnv.noCode, ⟨false, true, "hi"⟩, true, "T"⟩ : RunEnv).spectacleExitCode = 0) ∧
    (((⟨"eng", true, true⟩ : Config).disableQr = false ∧
        (detectQrCode (⟨0, QrEnv.noCode, ⟨false, true, "hi"⟩, true, "T"⟩ : RunEnv).qr).success = true) ∨
      (extractText ⟨false, true, "hi"⟩ "eng").success = true) ∧
    (runMain ⟨"eng", true, true⟩ ⟨0, QrEnv.noCode, ⟨false, true, "hi"⟩, true, "T"⟩).exitMode = ExitMode.directReturn 0 ∧
    (runMain ⟨"eng", true, true⟩ ⟨0, QrEnv.noCode, ⟨false, true, "hi"⟩, true, "T"⟩).windowShown = false :=
  ⟨rfl, rfl, Or.inr rfl,
    auto_export_success_exits_zero _ _ rfl rfl (Or.inr rfl)⟩

/-- C9 counterexample: on this auto-export run the HTML file fails to
open; the run raises no alert, leaves the success message on the label,
writes no document, and still returns 0 — the failure is silent. -/
theorem auto_export_write_failure_is_silent :
    (runMain ⟨"eng", false, true⟩ ⟨0, QrEnv.decoded "hello", ⟨false, true, ""⟩, false, "T"⟩).criticalAlert = none ∧
    (runMain ⟨"eng", false, true⟩ ⟨0, QrEnv.decoded "hello", ⟨false, true, ""⟩, false, "T"⟩).htmlDocs = [] ∧
    (runMain ⟨"eng", false, true⟩ ⟨0, QrEnv.decoded "hello", ⟨false, true, ""⟩, false, "T"⟩).labelText = "QR code detected and decoded successfully" ∧
    (runMain ⟨"eng", false, true⟩ ⟨0, QrEnv.decoded "hello", ⟨false, true, ""⟩, false, "T"⟩).exitMode = ExitMode.directReturn 0 :=
  ⟨rfl, rfl, rfl, rfl⟩

/-- C9 amended: write failures on the interactive export paths (save
text, save image, browser button) are surfaced via a blocking alert plus
a status-label update and the operation is abandoned; on the automatic
browser-export paths, however, a failure to open the HTML file is
silently ignored — no alert is raised and no document is written. -/
theorem export_write_failures_surfaced_interactively
    (textArea : String) (stEnv : SaveTextEnv) (siEnv : SaveImageEnv)
    (benv : BrowserEnv) (cfg : Config) (env : RunEnv)
    (ht : textArea ≠ "")
    (h1 : stEnv.dialogFileName ≠ "") (h2 : stEnv.openOk = false)
    (h3 : siEnv.dialogFileName ≠ "") (h4 : siEnv.copyOk = false)
    (h5 : benv.openOk = false)
    (h6 : cfg.openInBrowser = true) (h7 : env.spectacleExitCode = 0)
    (h8 : env.htmlOpenOk = false) :
    (saveTextClick textArea stEnv).alert = some ("Error", "Failed to save the file") ∧
    (saveTextClick textArea stEnv).labelText = some "Failed to save file" ∧
    (saveTextClick textArea stEnv).written = none ∧
    (saveImageClick siEnv).alert = some ("Error", "Failed to save the screenshot file") ∧
    (saveImageClick siEnv).labelText = some "Failed to save screenshot" ∧
    (browserClick textArea benv).alert =
      some ("critical", "Error", "Failed to create temporary HTML file") ∧
    (browserClick textArea benv).labelText = some "Failed to create HTML file" ∧
    (browserClick textArea benv).htmlDoc = none ∧
    (runMain cfg env).criticalAlert = none ∧
    (runMain cfg env).htmlDocs = [] := by
  have hts : takeScreenshot env.spectacleExitCode = true := by
    simp [takeScreenshot, h7]
  have htb : (textArea == "") = false := by simp [ht]
  have h1b : (stEnv.dialogFileName == "") = false := by simp [h1]
  have h3b : (siEnv.dialogFileName == "") = false := by simp [h3]
  have hrm : (runMain cfg env).criticalAlert = none ∧ (runMain cfg env).htmlDocs = [] := by
    unfold runMain ocrPath
    split_ifs <;> simp_all
    all_goals split_ifs <;> simp_all
  refine ⟨?_, ?_, ?_, ?_, ?_, ?_, ?_, ?_, hrm.1, hrm.2⟩ <;>
    simp [saveTextClick, saveImageClick, browserClick, htb, h1b, h2, h3b, h4, h5]

/-- Witness for `export_write_failures_surfaced_interactively`. -/
theorem export_write_failures_surfaced_interactively_witness :
    (("hi" : String) ≠ "") ∧
    ((⟨"/home/u/f.txt", false⟩ : SaveTextEnv).dialogFileName ≠ "") ∧
    ((⟨"/home/u/f.txt", false⟩ : SaveTextEnv).openOk = false) ∧
    ((⟨"/home/u/g.png", false⟩ : SaveImageEnv).dialogFileName ≠ "") ∧
    ((⟨"/home/u/g.png", false⟩ : SaveImageEnv).copyOk = false) ∧
    ((⟨false, true, "T"⟩ : BrowserEnv).openOk = false) ∧
    ((⟨"eng", false, true⟩ : Config).openInBrowser = true) ∧
    ((⟨0, QrEnv.decoded "hello", ⟨false, true, ""⟩, false, "T"⟩ : RunEnv).spectacleExitCode = 0) ∧
    ((⟨0, QrEnv.decoded "hello", ⟨false, true, ""⟩, false, "T"⟩ : RunEnv).htmlOpenOk = false) ∧
    (saveTextClick "hi" ⟨"/home/u/f.txt", false⟩).alert = some ("Error", "Failed to save the file") ∧
    (saveTextClick "hi" ⟨"/home/u/f.txt", false⟩).labelText = some "Failed to save file" ∧
    (saveTextClick "hi" ⟨"/home/u/f.txt", false⟩).written = none ∧
    (saveImageClick ⟨"/home/u/g.png", false⟩).alert = some ("Error", "Failed to save the screenshot file") ∧
    (saveImageClick ⟨"/home/u/g.png", false⟩).labelText = some "Failed to save screenshot" ∧
    (browserClick "hi" ⟨false, true, "T"⟩).alert =
      some ("critical", "Error", "Failed to create temporary HTML file") ∧
    (browserClick "hi" ⟨false, true, "T"⟩).labelText = some "Failed to create HTML file" ∧
    (browserClick "hi" ⟨false, true, "T"⟩).htmlDoc = none ∧
    (runMain ⟨"eng", false, true⟩ ⟨0, QrEnv.decoded "hello", ⟨false, true, ""⟩, false, "T"⟩).criticalAlert = none ∧
    (runMain ⟨"eng", false, true⟩ ⟨0, QrEnv.decoded "hello", ⟨false, true, ""⟩, false, "T"⟩).htmlDocs = [] :=
  ⟨by decide, by decide, rfl, by decide, rfl, rfl, rfl, rfl, rfl,
    export_write_failures_surfaced_interactively "hi" ⟨"/home/u/f.txt", false⟩
      ⟨"/home/u/g.png", false⟩ ⟨false, true, "T"⟩ ⟨"eng", false, true⟩
      ⟨0, QrEnv.decoded "hello", ⟨false, true, ""⟩, false, "T"⟩
      (by decide) (by decide) rfl (by decide) rfl rfl rfl rfl rfl⟩

end SpectacleOcr
